import Mathlib

/-
Verification of the pbipandas client library's bulk-aggregation layer and
point-query collaborators.

The embedding models a pandas DataFrame as a column list plus a list of
rows (association lists from column names to cell values); JSON payloads
are a small inductive type; HTTP calls are abstracted as the response they
produce, and Python exceptions are `Except String`.
-/

namespace PBI

/-- A JSON value as decoded by `result.json()`. -/
inductive Json where
  | str (s : String)
  | bool (b : Bool)
  | num (n : Int)
  | null
  | arr (xs : List Json)
  | obj (kvs : List (String × Json))

/-- A cell value of a DataFrame: Python scalars plus `null` for NaN.
A cell holding a nested JSON object (e.g. connectionDetails) is opaque to
every operation modelled here, so it is collapsed to `null`. -/
inductive Cell where
  | s (v : String)
  | b (v : Bool)
  | i (v : Int)
  | null
deriving DecidableEq, Repr

/-- A DataFrame row: bindings for the non-missing cells. -/
abbrev Row := List (String × Cell)

/-- A pandas DataFrame: its column index and its rows. -/
structure Table where
  cols : List String
  rows : List Row
deriving DecidableEq, Repr

/-- `pd.DataFrame()`: no columns, no rows. -/
def Table.empty : Table := ⟨[], []⟩

/-- `df.empty`: true when either axis has length zero. -/
def Table.isEmpty (t : Table) : Bool := t.rows.isEmpty || t.cols.isEmpty

/-- `pd.concat([a, b])`: rows appended, columns the union keeping the order
of first appearance. -/
def Table.concat (a b : Table) : Table :=
  ⟨a.cols ++ b.cols.filter (fun c => !a.cols.contains c), a.rows ++ b.rows⟩

/-- The value of column `c` in row `r` (`Cell.null` models NaN for a
missing cell): the first binding wins. -/
def rowVal : Row → String → Cell
  | [], _ => Cell.null
  | kv :: rest, c => if kv.1 == c then kv.2 else rowVal rest c

/-- Whether row `r` has a binding for column `c`. -/
def rowHas (r : Row) (c : String) : Bool := r.any (fun kv => kv.1 == c)

/-- Overwrite (or append) the binding of column `c` in row `r`. -/
def rowSet (c : String) (v : Cell) (r : Row) : Row :=
  if rowHas r c then r.map (fun kv => if kv.1 == c then (c, v) else kv)
  else r ++ [(c, v)]

/-- `df[c] = v`: broadcast-assign a scalar to a column, appending the
column at the end if it is new. -/
def Table.setCol (t : Table) (c : String) (v : Cell) : Table :=
  ⟨if t.cols.contains c then t.cols else t.cols ++ [c],
   t.rows.map (rowSet c v)⟩

/-- `row[c]` on a row obtained from `df.iterrows()`: a KeyError when the
frame has no such column, otherwise the cell value (NaN for a hole). -/
def cellGet (cols : List String) (r : Row) (c : String) : Except String Cell :=
  if cols.contains c then .ok (rowVal r c) else .error ("KeyError: " ++ c)

/-- Rendering of a cell by a Python f-string. -/
def cellStr : Cell → String
  | .s v => v
  | .b true => "True"
  | .b false => "False"
  | .i n => toString n
  | .null => "nan"

/-- Substring test on character lists. -/
def charsContain (pat : List Char) : List Char → Bool
  | [] => pat.isEmpty
  | c :: cs => pat.isPrefixOf (c :: cs) || charsContain pat cs

/-- Python substring test `pat in s` (and `str.contains` with a
metacharacter-free pattern). -/
def strContains (s pat : String) : Bool := charsContain pat.data s.data

/-- `df[df[c] == v]`: keep the rows whose cell equals `v`; KeyError when
the column is absent. -/
def Table.filterEq (t : Table) (c : String) (v : Cell) : Except String Table :=
  if t.cols.contains c then
    .ok ⟨t.cols, t.rows.filter (fun r => rowVal r c == v)⟩
  else .error ("KeyError: " ++ c)

/-- One entry of the `df[c].str.contains(pat)` mask, negated: strings get
a boolean, anything else is NaN on which the subsequent `~` raises. -/
def nameKeep (pat : String) (c : Cell) : Except String Bool :=
  match c with
  | .s v => .ok (!(strContains v pat))
  | _ => .error "TypeError: bad operand type for unary invert"

/-- The whole negated containment mask for column `c`. -/
def maskOf (pat c : String) : List Row → Except String (List Bool)
  | [] => .ok []
  | r :: rest =>
    match nameKeep pat (rowVal r c) with
    | .error e => .error e
    | .ok bd =>
      match maskOf pat c rest with
      | .error e => .error e
      | .ok bs => .ok (bd :: bs)

/-- Boolean-mask row selection. -/
def applyMask : List Row → List Bool → List Row
  | r :: rs, bd :: bs => if bd then r :: applyMask rs bs else applyMask rs bs
  | _, _ => []

/-- `df[~df[c].str.contains(pat)]`: KeyError when the column is absent,
otherwise compute the mask (raising on non-string cells) and select. -/
def Table.filterNotContains (t : Table) (c pat : String) : Except String Table :=
  if t.cols.contains c then
    match maskOf pat c t.rows with
    | .error e => .error e
    | .ok m => .ok ⟨t.cols, applyMask t.rows m⟩
  else .error ("KeyError: " ++ c)

/-- `d.get(k)` on a decoded JSON object. -/
def jsonObjGet (kvs : List (String × Json)) (k : String) : Option Json :=
  match kvs.find? (fun kv => kv.1 == k) with
  | some kv => some kv.2
  | none => none

/-- `j[k]`: KeyError on a missing key, TypeError when `j` is not a dict. -/
def jsonGetKey (j : Json) (k : String) : Except String Json :=
  match j with
  | .obj kvs =>
    match jsonObjGet kvs k with
    | some v => .ok v
    | none => .error ("KeyError: " ++ k)
  | _ => .error "TypeError: not a dict"

/-- `j[n]` on a decoded JSON array. -/
def jsonIndex (j : Json) (n : Nat) : Except String Json :=
  match j with
  | .arr xs =>
    match xs.get? n with
    | some v => .ok v
    | none => .error "IndexError: list index out of range"
  | _ => .error "TypeError: not a list"

/-- A JSON scalar as a DataFrame cell (nested values are opaque here). -/
def jsonToCell : Json → Cell
  | .str s => Cell.s s
  | .bool bv => Cell.b bv
  | .num n => Cell.i n
  | _ => Cell.null

/-- The records of a JSON array, each required to be an object. -/
def recordsOf : List Json → Except String (List (List (String × Json)))
  | [] => .ok []
  | .obj kvs :: rest =>
    match recordsOf rest with
    | .ok rs => .ok (kvs :: rs)
    | .error e => .error e
  | _ :: _ => .error "ValueError: record is not a dict"

/-- Column index of `pd.DataFrame(records)`: union of the record keys in
order of first appearance. -/
def collectCols (recs : List (List (String × Json))) : List String :=
  recs.foldl (fun acc r => acc ++ (r.map Prod.fst).filter (fun k => !(acc.contains k))) []

/-- `pd.DataFrame(records)` from already-split records. -/
def tableOfRecords (recs : List (List (String × Json))) : Table :=
  ⟨collectCols recs, recs.map (fun r => r.map (fun kv => (kv.1, jsonToCell kv.2)))⟩

/-- `pd.DataFrame(j)` for a JSON array of objects. -/
def recordsToTable (j : Json) : Except String Table :=
  match j with
  | .arr items =>
    match recordsOf items with
    | .ok recs => .ok (tableOfRecords recs)
    | .error e => .error e
  | _ => .error "ValueError: bad records"

/-- An HTTP response as the point queries observe it: the status code and
the decoded JSON body. The outbound request (URL, auth header) does not
influence the claims, so each point query is modelled as a function of
the response its one HTTP call produced. -/
structure Response where
  status : Nat
  body : Json

/-- `PowerBIClient.get_dataset_refresh_history_by_id`: on HTTP 200 build a
frame from `result.json()["value"]`, otherwise return an empty frame. -/
def get_dataset_refresh_history_by_id (resp : Response) : Except String Table :=
  if resp.status == 200 then
    match jsonGetKey resp.body "value" with
    | .ok v => recordsToTable v
    | .error e => .error e
  else .ok Table.empty

/-- `PowerBIClient.get_dataflow_refresh_history_by_id`: same response
handling as the dataset variant. -/
def get_dataflow_refresh_history_by_id (resp : Response) : Except String Table :=
  if resp.status == 200 then
    match jsonGetKey resp.body "value" with
    | .ok v => recordsToTable v
    | .error e => .error e
  else .ok Table.empty

/-- `PowerBIClient.get_dataset_users_by_id`: same response handling. -/
def get_dataset_users_by_id (resp : Response) : Except String Table :=
  if resp.status == 200 then
    match jsonGetKey resp.body "value" with
    | .ok v => recordsToTable v
    | .error e => .error e
  else .ok Table.empty

/-- `GatewayClient.get_all_gateways`: on HTTP 200 use
`result.json().get("value", [])` — a missing key defaults to the empty
list instead of raising; a non-dict body raises AttributeError. -/
def get_all_gateways (resp : Response) : Except String Table :=
  if resp.status == 200 then
    match resp.body with
    | .obj kvs => recordsToTable ((jsonObjGet kvs "value").getD (Json.arr []))
    | _ => .error "AttributeError: get"
  else .ok Table.empty

/-- `GatewayClient.get_gateway_datasources`: same `.get("value", [])`
handling as `get_all_gateways`. -/
def get_gateway_datasources (resp : Response) : Except String Table :=
  if resp.status == 200 then
    match resp.body with
    | .obj kvs => recordsToTable ((jsonObjGet kvs "value").getD (Json.arr []))
    | _ => .error "AttributeError: get"
  else .ok Table.empty

/-- `result.json()["results"][0]["tables"][0]["rows"]` of an
executeQueries response. -/
def parseQueryRows (j : Json) : Except String Json :=
  match jsonGetKey j "results" with
  | .error e => .error e
  | .ok results =>
    match jsonIndex results 0 with
    | .error e => .error e
    | .ok r0 =>
      match jsonGetKey r0 "tables" with
      | .error e => .error e
      | .ok tables =>
        match jsonIndex tables 0 with
        | .error e => .error e
        | .ok t0 => jsonGetKey t0 "rows"

/-- Python `s.replace(ch, '')` for a single-character pattern: every
occurrence of the character is removed. -/
def pyDropChar (s : String) (ch : Char) : String :=
  String.mk (s.data.filter (fun c => c != ch))

/-- `col.replace('[', '').replace(']', '')`. -/
def stripBrackets (s : String) : String := pyDropChar (pyDropChar s '[') ']'

/-- `df.columns = [f(col) for col in df.columns]`: rename the column axis
(a cell keeps following its column under the rename). -/
def Table.renameCols (t : Table) (f : String → String) : Table :=
  ⟨t.cols.map f, t.rows.map (fun r => r.map (fun kv => (f kv.1, kv.2)))⟩

/-- Shared response handling of the four schema-introspection point
queries: on HTTP 200, unwrap the query envelope into a frame and strip
the bracket decoration from the column names of a non-empty frame. -/
def runInfoQuery (resp : Response) : Except String Table :=
  if resp.status == 200 then
    match parseQueryRows resp.body with
    | .error e => .error e
    | .ok v =>
      match recordsToTable v with
      | .error e => .error e
      | .ok df => .ok (if df.isEmpty then df else df.renameCols stripBrackets)
  else .ok Table.empty

/-- `PowerBIClient.get_dataset_tables_by_id` (the outbound DAX query
differs between the four schema fetchers; the response handling is
identical). -/
def get_dataset_tables_by_id (resp : Response) : Except String Table :=
  runInfoQuery resp

/-- `PowerBIClient.get_dataset_columns_by_id`. -/
def get_dataset_columns_by_id (resp : Response) : Except String Table :=
  runInfoQuery resp

/-- `PowerBIClient.get_dataset_measures_by_id`. -/
def get_dataset_measures_by_id (resp : Response) : Except String Table :=
  runInfoQuery resp

/-- `PowerBIClient.get_dataset_calc_dependencies_by_id`. -/
def get_dataset_calc_dependencies_by_id (resp : Response) : Except String Table :=
  runInfoQuery resp

/-- The five connection-detail field names. -/
def fiveKeys : List String := ["server", "database", "connectionString", "url", "path"]

/-- The all-None connection-detail record. -/
def none5 : List (String × Option Json) := fiveKeys.map (fun k => (k, none))

/-- The five `.get` projections of a parsed connection dictionary. -/
def fiveOf (kvs : List (String × Json)) : List (String × Option Json) :=
  fiveKeys.map (fun k => (k, jsonObjGet kvs k))

/-- `PowerBIClient.extract_connection_details`, parameterized by the
`ast.literal_eval` collaborator: a string input is parsed (a parse
failure, or a parse to a non-dict on which `.get` raises, is caught and
yields the all-None record), a dict input is projected directly, and any
other input yields the all-None record. -/
def extract_connection_details (litEval : String → Except String Json) (x : Json) :
    List (String × Option Json) :=
  match x with
  | .str s =>
    match litEval s with
    | .ok (.obj kvs) => fiveOf kvs
    | .ok _ => none5
    | .error _ => none5
  | .obj kvs => fiveOf kvs
  | _ => none5

/-- Modelled from the spec: the claim characterizes the result fields as
"the corresponding entry of the parsed dictionary if present and None
otherwise"; this is the parsed dictionary the claim speaks of. -/
def parsedDict (litEval : String → Except String Json) (x : Json) :
    Option (List (String × Json)) :=
  match x with
  | .str s =>
    match litEval s with
    | .ok (.obj kvs) => some kvs
    | _ => none
  | .obj kvs => some kvs
  | _ => none

/-- The try-block body of one `get_all_datasets` loop iteration: read the
workspace id, invoke the per-workspace point query, and annotate a
non-empty result with the workspace context columns. `none` means the
empty result was skipped; `error` is the exception the except-clause
catches. -/
def wsBody (fetch : Cell → Except String Table) (cols : List String) (w : Row) :
    Except String (Option Table) :=
  match cellGet cols w "id" with
  | .error e => .error e
  | .ok wid =>
    match fetch wid with
    | .error e => .error e
    | .ok df =>
      if df.isEmpty then .ok none
      else
        match cellGet cols w "name" with
        | .error e => .error e
        | .ok wname =>
          .ok (some ((df.setCol "workspaceId" wid).setCol "workspaceName" wname))

/-- The try-block body of one dataset-level loop iteration (refresh
history, users, sources): read the parent dataset's workspace id and id,
invoke the two-level point query, and annotate a non-empty result with
the dataset and workspace context columns. -/
def dsBody (fetch : Cell → Cell → Except String Table) (cols : List String) (d : Row) :
    Except String (Option Table) :=
  match cellGet cols d "workspaceId" with
  | .error e => .error e
  | .ok wid =>
    match cellGet cols d "id" with
    | .error e => .error e
    | .ok did =>
      match fetch wid did with
      | .error e => .error e
      | .ok df =>
        if df.isEmpty then .ok none
        else
          match cellGet cols d "name" with
          | .error e => .error e
          | .ok dname =>
            match cellGet cols d "workspaceName" with
            | .error e => .error e
            | .ok wname =>
              .ok (some ((((df.setCol "datasetId" did).setCol "datasetName" dname).setCol
                "workspaceId" wid).setCol "workspaceName" wname))

/-- One iteration of a bulk fan-out loop: on success extend the
accumulator (an empty result contributes nothing), on an exception print
one diagnostic naming the parent's id and continue — the except-clause
itself re-reads that id, so a missing id there propagates. -/
def fanoutStep (body : Row → Except String (Option Table))
    (logId : Row → Except String Cell) (pfx : String)
    (acc : Table × List String) (w : Row) : Except String (Table × List String) :=
  match body w with
  | .ok none => .ok acc
  | .ok (some t) => .ok (acc.1.concat t, acc.2)
  | .error e =>
    match logId w with
    | .ok cid => .ok (acc.1, acc.2 ++ [pfx ++ cellStr cid ++ ": " ++ e])
    | .error e2 => .error e2

/-- The `for … in df.iterrows()` loop of a bulk method. -/
def fanoutFold (step : Table × List String → Row → Except String (Table × List String)) :
    Table × List String → List Row → Except String (Table × List String)
  | acc, [] => .ok acc
  | acc, w :: rest =>
    match step acc w with
    | .ok acc2 => fanoutFold step acc2 rest
    | .error e => .error e

/-- A bulk fan-out loop from the `pd.DataFrame()` accumulator. -/
def fanoutLoop (body : Row → Except String (Option Table))
    (logId : Row → Except String Cell) (pfx : String)
    (logs0 : List String) (rows : List Row) : Except String (Table × List String) :=
  fanoutFold (fanoutStep body logId pfx) (Table.empty, logs0) rows

/-- `BulkClient.get_all_datasets`, parameterized by the result of the
`self.get_all_workspaces()` call and by the per-workspace point query
(`self.get_dataset_by_id`, from the dataset-client collaborator). The
returned list of strings is what the loop printed. -/
def get_all_datasets (wsResult : Except String Table)
    (fetch : Cell → Except String Table) : Except String (Table × List String) :=
  match wsResult with
  | .error e => .error e
  | .ok dfw =>
    fanoutLoop (wsBody fetch dfw.cols) (fun w => cellGet dfw.cols w "id")
      "Error processing workspace " [] dfw.rows

/-- `BulkClient.get_all_dataset_refresh_history`, parameterized by the
result of the `self.get_all_datasets()` call and by the per-dataset
refresh-history point query. The filtering pre-pass
`df_datasets[df_datasets['isRefreshable'] == 'True']` runs before the
fan-out loop. -/
def get_all_dataset_refresh_history (allDatasets : Except String (Table × List String))
    (fetch : Cell → Cell → Except String Table) : Except String (Table × List String) :=
  match allDatasets with
  | .error e => .error e
  | .ok (dfDatasets, logs0) =>
    match dfDatasets.filterEq "isRefreshable" (Cell.s "True") with
    | .error e => .error e
    | .ok refreshable =>
      fanoutLoop (dsBody fetch refreshable.cols) (fun d => cellGet refreshable.cols d "id")
        "Error processing dataset refresh history " logs0 refreshable.rows

/-- `BulkClient.get_all_dataset_users`: the pre-pass
`df_datasets[~df_datasets['name'].str.contains("Usage Metrics")]` runs
before the fan-out loop. -/
def get_all_dataset_users (allDatasets : Except String (Table × List String))
    (fetch : Cell → Cell → Except String Table) : Except String (Table × List String) :=
  match allDatasets with
  | .error e => .error e
  | .ok (dfDatasets, logs0) =>
    match dfDatasets.filterNotContains "name" "Usage Metrics" with
    | .error e => .error e
    | .ok kept =>
      fanoutLoop (dsBody fetch kept.cols) (fun d => cellGet kept.cols d "id")
        "Error processing dataset users " logs0 kept.rows

/-- `BulkClient.get_all_dataset_sources`: same pre-pass and loop shape as
`get_all_dataset_users`, with the sources point query. -/
def get_all_dataset_sources (allDatasets : Except String (Table × List String))
    (fetch : Cell → Cell → Except String Table) : Except String (Table × List String) :=
  match allDatasets with
  | .error e => .error e
  | .ok (dfDatasets, logs0) =>
    match dfDatasets.filterNotContains "name" "Usage Metrics" with
    | .error e => .error e
    | .ok kept =>
      fanoutLoop (dsBody fetch kept.cols) (fun d => cellGet kept.cols d "id")
        "Error processing dataset sources " logs0 kept.rows

/-- The workspace-context annotation of `get_all_datasets`
(lines setting `workspaceId` and `workspaceName`). -/
def wsAnnot (w : Row) (t : Table) : Table :=
  (t.setCol "workspaceId" (rowVal w "id")).setCol "workspaceName" (rowVal w "name")

/-- The dataset-context annotation of the dataset-level bulk methods
(lines setting `datasetId`, `datasetName`, `workspaceId`,
`workspaceName`). -/
def dsAnnot (d : Row) (t : Table) : Table :=
  (((t.setCol "datasetId" (rowVal d "id")).setCol "datasetName" (rowVal d "name")).setCol
    "workspaceId" (rowVal d "workspaceId")).setCol "workspaceName" (rowVal d "workspaceName")

/-- The rows surviving the refreshable pre-pass. -/
def refreshableRows (t : Table) : List Row :=
  t.rows.filter (fun d => rowVal d "isRefreshable" == Cell.s "True")

/-- Whether a parent dataset row survives the "Usage Metrics" name
filter: its name is a string not containing the substring. -/
def nameCleanB (c : Cell) : Bool :=
  match c with
  | .s v => !(strContains v "Usage Metrics")
  | _ => false

/-- Column `c` is present and every one of its bindings holds `v`. -/
def colFixed (t : Table) (c : String) (v : Cell) : Prop :=
  t.cols.contains c = true ∧
    ∀ r ∈ t.rows, rowHas r c = true ∧ ∀ kv ∈ r, kv.1 = c → kv.2 = v

/- ### Concrete sample data for witnesses -/

/-- A sample workspace row. -/
def w1W : Row := [("id", Cell.s "w1"), ("name", Cell.s "W1")]

/-- A second sample workspace row. -/
def w2W : Row := [("id", Cell.s "w2"), ("name", Cell.s "W2")]

/-- A third sample workspace row. -/
def w3W : Row := [("id", Cell.s "w3"), ("name", Cell.s "W3")]

/-- A sample workspaces table with one workspace. -/
def wsW : Table := ⟨["id", "name"], [w1W]⟩

/-- A sample per-workspace dataset listing. -/
def dTblW : Table := ⟨["id", "name"], [[("id", Cell.s "d1"), ("name", Cell.s "Sales")]]⟩

/-- A sample dataset-collaborator that always succeeds. -/
def fetchDsW : Cell → Except String Table := fun _ => .ok dTblW

/-- The per-workspace result function matching `fetchDsW`. -/
def tblWF : Row → Table := fun _ => dTblW

/-- A sample collaborator failing exactly on workspace w2. -/
def fetchC2 : Cell → Except String Table :=
  fun c => if c == Cell.s "w2" then .error "boom" else .ok dTblW

/-- A sample aggregated datasets table (one refreshable clean dataset,
one auto-generated usage-metrics dataset, one dataset whose refreshable
flag is a boolean rather than the string "True"). -/
def dsW : Table :=
  ⟨["id", "name", "isRefreshable", "workspaceId", "workspaceName"],
   [[("id", Cell.s "d1"), ("name", Cell.s "Sales"), ("isRefreshable", Cell.s "True"),
     ("workspaceId", Cell.s "w1"), ("workspaceName", Cell.s "W1")],
    [("id", Cell.s "d2"), ("name", Cell.s "Usage Metrics Report"),
     ("isRefreshable", Cell.s "True"), ("workspaceId", Cell.s "w1"),
     ("workspaceName", Cell.s "W1")],
    [("id", Cell.s "d3"), ("name", Cell.s "Raw"), ("isRefreshable", Cell.b true),
     ("workspaceId", Cell.s "w1"), ("workspaceName", Cell.s "W1")]]⟩

/-- A sample refresh-history point-query result. -/
def rTblW : Table := ⟨["status"], [[("status", Cell.s "Completed")]]⟩

/-- A sample two-level collaborator that always succeeds. -/
def fetchRhW : Cell → Cell → Except String Table := fun _ _ => .ok rTblW

/-- The per-dataset result function matching `fetchRhW`. -/
def tblDF : Row → Table := fun _ => rTblW

/-- A sample dataset-users point-query result. -/
def uTblW : Table := ⟨["user"], [[("user", Cell.s "alice")]]⟩

/-- A sample two-level users/sources collaborator. -/
def fetchUsW : Cell → Cell → Except String Table := fun _ _ => .ok uTblW

/- ### Row-level lemmas -/

lemma rowVal_map_set_self (c : String) (v : Cell) (r : Row) (h : rowHas r c = true) :
    rowVal (r.map (fun kv => if kv.1 == c then (c, v) else kv)) c = v := by
  induction r with
  | nil => simp [rowHas] at h
  | cons kv rest ih =>
    rw [List.map_cons]
    by_cases hk : (kv.1 == c) = true
    · rw [if_pos hk]
      simp [rowVal]
    · have hr : rowHas rest c = true := by
        simp only [rowHas, List.any_cons, Bool.or_eq_true] at h
        rcases h with h1 | h2
        · exact absurd h1 hk
        · exact h2
      rw [if_neg hk]
      simp only [rowVal]
      rw [if_neg hk]
      exact ih hr

lemma rowVal_append_single_self (c : String) (v : Cell) (r : Row) (h : rowHas r c = false) :
    rowVal (r ++ [(c, v)]) c = v := by
  induction r with
  | nil => simp [rowVal]
  | cons kv rest ih =>
    simp only [rowHas, List.any_cons, Bool.or_eq_false_iff] at h
    rw [List.cons_append]
    simp only [rowVal]
    rw [if_neg (by simp [h.1])]
    exact ih h.2

lemma rowVal_rowSet_self (c : String) (v : Cell) (r : Row) :
    rowVal (rowSet c v r) c = v := by
  unfold rowSet
  by_cases h : rowHas r c = true
  · rw [if_pos h]
    exact rowVal_map_set_self c v r h
  · rw [if_neg h]
    exact rowVal_append_single_self c v r (by simpa using h)

lemma rowVal_map_set_other {c c' : String} (v : Cell) (r : Row) (h : c' ≠ c) :
    rowVal (r.map (fun kv => if kv.1 == c' then (c', v) else kv)) c = rowVal r c := by
  induction r with
  | nil => simp
  | cons kv rest ih =>
    rw [List.map_cons]
    by_cases hk : (kv.1 == c') = true
    · have hk1 : kv.1 = c' := by simpa using hk
      have hcc : (c' == c) = false := beq_eq_false_iff_ne.mpr h
      simp only [rowVal]
      rw [if_pos hk]
      simp only [rowVal]
      rw [if_neg (by simp [hcc]), if_neg (by simp [hk1, hcc])]
      exact ih
    · rw [if_neg hk]
      simp only [rowVal]
      by_cases hkc : (kv.1 == c) = true
      · rw [if_pos hkc, if_pos hkc]
      · rw [if_neg hkc, if_neg hkc]
        exact ih

lemma rowVal_append_single_other {c c' : String} (v : Cell) (r : Row) (h : c' ≠ c) :
    rowVal (r ++ [(c', v)]) c = rowVal r c := by
  induction r with
  | nil => simp [rowVal, beq_eq_false_iff_ne.mpr h]
  | cons kv rest ih =>
    rw [List.cons_append]
    simp only [rowVal]
    by_cases hkc : (kv.1 == c) = true
    · rw [if_pos hkc, if_pos hkc]
    · rw [if_neg hkc, if_neg hkc]
      exact ih

lemma rowVal_rowSet_other {c c' : String} (v : Cell) (r : Row) (h : c' ≠ c) :
    rowVal (rowSet c' v r) c = rowVal r c := by
  unfold rowSet
  by_cases hh : rowHas r c' = true
  · rw [if_pos hh]
    exact rowVal_map_set_other v r h
  · rw [if_neg hh]
    exact rowVal_append_single_other v r h

lemma rowHas_map_set (c c' : String) (v : Cell) (r : Row) :
    rowHas (r.map (fun kv => if kv.1 == c' then (c', v) else kv)) c = rowHas r c := by
  induction r with
  | nil => rfl
  | cons kv rest ih =>
    rw [List.map_cons]
    unfold rowHas at ih ⊢
    rw [List.any_cons, List.any_cons, ih]
    by_cases hk : (kv.1 == c') = true
    · have hk1 : kv.1 = c' := by simpa using hk
      rw [if_pos hk, hk1]
    · rw [if_neg hk]

lemma rowHas_rowSet_self (c : String) (v : Cell) (r : Row) :
    rowHas (rowSet c v r) c = true := by
  unfold rowSet
  by_cases h : rowHas r c = true
  · rw [if_pos h, rowHas_map_set]
    exact h
  · rw [if_neg h]
    unfold rowHas
    rw [List.any_append]
    simp

lemma rowHas_rowSet_other {c c' : String} (v : Cell) (r : Row) (h : c' ≠ c) :
    rowHas (rowSet c' v r) c = rowHas r c := by
  unfold rowSet
  by_cases hh : rowHas r c' = true
  · rw [if_pos hh, rowHas_map_set]
  · rw [if_neg hh]
    unfold rowHas
    rw [List.any_append]
    simp [beq_eq_false_iff_ne.mpr h]

lemma mem_rowSet_ne {kv : String × Cell} {c' : String} {v : Cell} {r : Row}
    (hm : kv ∈ rowSet c' v r) (hne : kv.1 ≠ c') : kv ∈ r := by
  unfold rowSet at hm
  by_cases h : rowHas r c' = true
  · rw [if_pos h] at hm
    obtain ⟨kv0, hkv0, heq⟩ := List.mem_map.mp hm
    by_cases hk : (kv0.1 == c') = true
    · rw [if_pos hk] at heq
      exact absurd (by rw [← heq]) hne
    · rw [if_neg hk] at heq
      exact heq ▸ hkv0
  · rw [if_neg h] at hm
    rcases List.mem_append.mp hm with hm | hm
    · exact hm
    · rw [List.mem_singleton] at hm
      exact absurd (by rw [hm]) hne

lemma rowSet_binding_val {c : String} {v : Cell} {r : Row} :
    ∀ kv ∈ rowSet c v r, kv.1 = c → kv.2 = v := by
  intro kv hm h1
  unfold rowSet at hm
  by_cases h : rowHas r c = true
  · rw [if_pos h] at hm
    obtain ⟨kv0, hkv0, heq⟩ := List.mem_map.mp hm
    by_cases hk : (kv0.1 == c) = true
    · rw [if_pos hk] at heq
      rw [← heq]
    · rw [if_neg hk] at heq
      subst heq
      exact absurd (by simpa using h1) (by simpa using hk)
  · rw [if_neg h] at hm
    rcases List.mem_append.mp hm with hm | hm
    · exfalso
      have h' : rowHas r c = false := Bool.eq_false_iff.mpr h
      have hfalse := List.any_eq_false.mp (show r.any (fun kv => kv.1 == c) = false from h') kv hm
      exact hfalse (by simpa using h1)
    · rw [List.mem_singleton] at hm
      rw [hm]

lemma rowSet_eq_self {c : String} {v : Cell} {r : Row} (h1 : rowHas r c = true)
    (h2 : ∀ kv ∈ r, kv.1 = c → kv.2 = v) : rowSet c v r = r := by
  unfold rowSet
  rw [if_pos h1]
  have hcong : ∀ kv ∈ r, (if kv.1 == c then (c, v) else kv) = kv := by
    intro kv hkv
    by_cases hk : kv.1 == c
    · have hk1 : kv.1 = c := by simpa using hk
      have hv := h2 kv hkv hk1
      rw [if_pos hk]
      exact Prod.ext hk1.symm hv.symm
    · rw [if_neg hk]
  rw [List.map_congr_left hcong]
  exact List.map_id r

/- ### Table-level lemmas -/

lemma setCol_rows (t : Table) (c : String) (v : Cell) :
    (t.setCol c v).rows = t.rows.map (rowSet c v) := rfl

lemma concat_rows (a b : Table) : (a.concat b).rows = a.rows ++ b.rows := rfl

lemma setCol_contains_self (t : Table) (c : String) (v : Cell) :
    (t.setCol c v).cols.contains c = true := by
  simp only [Table.setCol]
  by_cases h : t.cols.contains c = true
  · rw [if_pos h]
    exact h
  · rw [if_neg h]
    simp

lemma setCol_contains_mono (t : Table) (c c' : String) (v : Cell)
    (h : t.cols.contains c = true) : (t.setCol c' v).cols.contains c = true := by
  simp only [Table.setCol]
  by_cases h' : t.cols.contains c' = true
  · rw [if_pos h']
    exact h
  · rw [if_neg h']
    have hmem : c ∈ t.cols := by simpa using h
    simp [List.mem_append, hmem]

lemma colFixed_setCol_self (t : Table) (c : String) (v : Cell) :
    colFixed (t.setCol c v) c v := by
  refine ⟨setCol_contains_self t c v, ?_⟩
  intro r hr
  rw [setCol_rows] at hr
  obtain ⟨r0, _, rfl⟩ := List.mem_map.mp hr
  exact ⟨rowHas_rowSet_self c v r0, rowSet_binding_val⟩

lemma colFixed_setCol_other {t : Table} {c : String} {v : Cell} (c' : String) (v' : Cell)
    (h : c' ≠ c) (hf : colFixed t c v) : colFixed (t.setCol c' v') c v := by
  refine ⟨setCol_contains_mono t c c' v' hf.1, ?_⟩
  intro r hr
  rw [setCol_rows] at hr
  obtain ⟨r0, hr0, rfl⟩ := List.mem_map.mp hr
  obtain ⟨hh, hv⟩ := hf.2 r0 hr0
  refine ⟨by rw [rowHas_rowSet_other v' r0 h]; exact hh, ?_⟩
  intro kv hkv h1
  have hne : kv.1 ≠ c' := by
    rw [h1]
    exact fun hc => h hc.symm
  exact hv kv (mem_rowSet_ne hkv hne) h1

lemma setCol_fixed_id {t : Table} {c : String} {v : Cell} (hf : colFixed t c v) :
    t.setCol c v = t := by
  obtain ⟨hc, hrows⟩ := hf
  unfold Table.setCol
  cases t with
  | mk cols rows =>
    simp only at hc hrows
    rw [if_pos hc]
    have hcong : ∀ r ∈ rows, rowSet c v r = r := by
      intro r hr
      exact rowSet_eq_self (hrows r hr).1 (hrows r hr).2
    rw [List.map_congr_left hcong]
    simp

/- ### Fan-out loop lemmas -/

/-- Characterization of a fan-out loop run in which every parent row is
classified: skipped with an empty result, contributing its annotated
rows, or failing with one logged diagnostic. -/
lemma fanoutFold_spec (body : Row → Except String (Option Table))
    (logId : Row → Except String Cell) (pfx : String)
    (g : Row → List Row) (m : Row → List String) :
    ∀ (rows : List Row) (acc : Table) (logs : List String),
    (∀ w ∈ rows,
      (body w = .ok none ∧ g w = [] ∧ m w = []) ∨
      (∃ t, body w = .ok (some t) ∧ g w = t.rows ∧ m w = []) ∨
      (∃ e cid, body w = .error e ∧ logId w = .ok cid ∧ g w = [] ∧
        m w = [pfx ++ cellStr cid ++ ": " ++ e])) →
    ∃ T, fanoutFold (fanoutStep body logId pfx) (acc, logs) rows =
        .ok (T, logs ++ rows.flatMap m) ∧ T.rows = acc.rows ++ rows.flatMap g := by
  intro rows
  induction rows with
  | nil =>
    intro acc logs _
    exact ⟨acc, by simp [fanoutFold], by simp⟩
  | cons w rest ih =>
    intro acc logs h
    have hw := h w (List.mem_cons_self w rest)
    have hrest := fun w' hw' => h w' (List.mem_cons_of_mem w hw')
    rcases hw with ⟨hb, hg, hm⟩ | ⟨t, hb, hg, hm⟩ | ⟨e, cid, hb, hl, hg, hm⟩
    · obtain ⟨T, hT, hTrows⟩ := ih acc logs hrest
      refine ⟨T, ?_, ?_⟩
      · simp only [fanoutFold, fanoutStep, hb]
        rw [hT]
        simp [hm]
      · rw [hTrows]
        simp [hg]
    · obtain ⟨T, hT, hTrows⟩ := ih (acc.concat t) logs hrest
      refine ⟨T, ?_, ?_⟩
      · simp only [fanoutFold, fanoutStep, hb]
        rw [hT]
        simp [hm]
      · rw [hTrows, concat_rows]
        simp [hg]
    · obtain ⟨T, hT, hTrows⟩ := ih acc (logs ++ [pfx ++ cellStr cid ++ ": " ++ e]) hrest
      refine ⟨T, ?_, ?_⟩
      · simp only [fanoutFold, fanoutStep, hb, hl]
        rw [hT]
        simp [hm]
      · rw [hTrows]
        simp [hg]

/-- Every row of a fan-out loop result comes from the initial accumulator
or from the annotated table a successful parent body produced. -/
lemma fanoutFold_mem (body : Row → Except String (Option Table))
    (logId : Row → Except String Cell) (pfx : String) :
    ∀ (rows : List Row) (acc : Table × List String) (T : Table) (logs : List String),
    fanoutFold (fanoutStep body logId pfx) acc rows = .ok (T, logs) →
    ∀ r ∈ T.rows, r ∈ acc.1.rows ∨
      ∃ w ∈ rows, ∃ t, body w = .ok (some t) ∧ r ∈ t.rows := by
  intro rows
  induction rows with
  | nil =>
    intro acc T logs hrun r hr
    simp only [fanoutFold] at hrun
    injection hrun with h
    subst h
    exact Or.inl hr
  | cons w rest ih =>
    intro acc T logs hrun r hr
    cases hb : body w with
    | ok o =>
      cases o with
      | none =>
        simp only [fanoutFold, fanoutStep, hb] at hrun
        rcases ih acc T logs hrun r hr with h | ⟨w', hw', t, hbt, hrt⟩
        · exact Or.inl h
        · exact Or.inr ⟨w', List.mem_cons_of_mem w hw', t, hbt, hrt⟩
      | some t0 =>
        simp only [fanoutFold, fanoutStep, hb] at hrun
        rcases ih _ T logs hrun r hr with h | ⟨w', hw', t, hbt, hrt⟩
        · rw [concat_rows] at h
          rcases List.mem_append.mp h with h | h
          · exact Or.inl h
          · exact Or.inr ⟨w, List.mem_cons_self w rest, t0, hb, h⟩
        · exact Or.inr ⟨w', List.mem_cons_of_mem w hw', t, hbt, hrt⟩
    | error e =>
      cases hl : logId w with
      | ok cid =>
        simp only [fanoutFold, fanoutStep, hb, hl] at hrun
        rcases ih _ T logs hrun r hr with h | ⟨w', hw', t, hbt, hrt⟩
        · exact Or.inl h
        · exact Or.inr ⟨w', List.mem_cons_of_mem w hw', t, hbt, hrt⟩
      | error e2 =>
        simp only [fanoutFold, fanoutStep, hb, hl] at hrun
        exact absurd hrun (fun hc => Except.noConfusion hc)

instance {ε α : Type} [DecidableEq ε] [DecidableEq α] : DecidableEq (Except ε α) := fun a b =>
  match a, b with
  | .ok x, .ok y =>
    if h : x = y then .isTrue (by rw [h]) else .isFalse (fun hc => h (Except.ok.inj hc))
  | .error x, .error y =>
    if h : x = y then .isTrue (by rw [h]) else .isFalse (fun hc => h (Except.error.inj hc))
  | .ok _, .error _ => .isFalse (fun hc => Except.noConfusion hc)
  | .error _, .ok _ => .isFalse (fun hc => Except.noConfusion hc)

/- ### Loop-body characterization -/

lemma cellGet_ok {cols : List String} (r : Row) {c : String} (h : cols.contains c = true) :
    cellGet cols r c = .ok (rowVal r c) := by
  unfold cellGet
  rw [if_pos h]

lemma cellGet_ok_val {cols : List String} {r : Row} {c : String} {x : Cell}
    (h : cellGet cols r c = .ok x) : x = rowVal r c := by
  unfold cellGet at h
  by_cases hc : cols.contains c = true
  · rw [if_pos hc] at h
    exact (Except.ok.inj h).symm
  · rw [if_neg hc] at h
    exact absurd h (fun hx => Except.noConfusion hx)

lemma isEmpty_true_of_rows_nil {t : Table} (h : t.rows = []) : t.isEmpty = true := by
  simp [Table.isEmpty, h]

lemma isEmpty_false_of_nonempty {t : Table} (h1 : t.rows ≠ []) (h2 : t.cols ≠ []) :
    t.isEmpty = false := by
  simp [Table.isEmpty, h1, h2]

lemma wsBody_ok_empty {fetch : Cell → Except String Table} {cols : List String} {w : Row}
    {tw : Table} (hid : cols.contains "id" = true)
    (hfetch : fetch (rowVal w "id") = .ok tw) (hrows : tw.rows = []) :
    wsBody fetch cols w = .ok none := by
  simp only [wsBody, cellGet_ok w hid, hfetch]
  rw [if_pos (isEmpty_true_of_rows_nil hrows)]

lemma wsBody_ok_nonempty {fetch : Cell → Except String Table} {cols : List String} {w : Row}
    {tw : Table} (hid : cols.contains "id" = true) (hname : cols.contains "name" = true)
    (hfetch : fetch (rowVal w "id") = .ok tw) (hrows : tw.rows ≠ []) (hcols : tw.cols ≠ []) :
    wsBody fetch cols w = .ok (some (wsAnnot w tw)) := by
  simp only [wsBody, cellGet_ok w hid, cellGet_ok w hname, hfetch]
  rw [if_neg (by simp [isEmpty_false_of_nonempty hrows hcols])]
  rfl

lemma wsBody_error_fetch {fetch : Cell → Except String Table} {cols : List String} {w : Row}
    {e : String} (hid : cols.contains "id" = true)
    (hfetch : fetch (rowVal w "id") = .error e) : wsBody fetch cols w = .error e := by
  simp only [wsBody, cellGet_ok w hid, hfetch]

lemma dsBody_ok_empty {fetch : Cell → Cell → Except String Table} {cols : List String}
    {d : Row} {td : Table} (hwid : cols.contains "workspaceId" = true)
    (hid : cols.contains "id" = true)
    (hfetch : fetch (rowVal d "workspaceId") (rowVal d "id") = .ok td) (hrows : td.rows = []) :
    dsBody fetch cols d = .ok none := by
  simp only [dsBody, cellGet_ok d hwid, cellGet_ok d hid, hfetch]
  rw [if_pos (isEmpty_true_of_rows_nil hrows)]

lemma dsBody_ok_nonempty {fetch : Cell → Cell → Except String Table} {cols : List String}
    {d : Row} {td : Table} (hwid : cols.contains "workspaceId" = true)
    (hid : cols.contains "id" = true) (hname : cols.contains "name" = true)
    (hwname : cols.contains "workspaceName" = true)
    (hfetch : fetch (rowVal d "workspaceId") (rowVal d "id") = .ok td)
    (hrows : td.rows ≠ []) (hcols : td.cols ≠ []) :
    dsBody fetch cols d = .ok (some (dsAnnot d td)) := by
  simp only [dsBody, cellGet_ok d hwid, cellGet_ok d hid, cellGet_ok d hname,
    cellGet_ok d hwname, hfetch]
  rw [if_neg (by simp [isEmpty_false_of_nonempty hrows hcols])]
  rfl

lemma dsBody_error_fetch {fetch : Cell → Cell → Except String Table} {cols : List String}
    {d : Row} {e : String} (hwid : cols.contains "workspaceId" = true)
    (hid : cols.contains "id" = true)
    (hfetch : fetch (rowVal d "workspaceId") (rowVal d "id") = .error e) :
    dsBody fetch cols d = .error e := by
  simp only [dsBody, cellGet_ok d hwid, cellGet_ok d hid, hfetch]

/-- Inversion: a successful, contributing dataset-level body annotated
some fetched table with the parent's four context values. -/
lemma dsBody_some_inv {fetch : Cell → Cell → Except String Table} {cols : List String}
    {d : Row} {t : Table} (h : dsBody fetch cols d = .ok (some t)) :
    ∃ df, t = dsAnnot d df := by
  unfold dsBody at h
  cases h1 : cellGet cols d "workspaceId" with
  | error e => simp only [h1] at h; exact absurd h (fun hc => Except.noConfusion hc)
  | ok wid =>
    simp only [h1] at h
    cases h2 : cellGet cols d "id" with
    | error e => simp only [h2] at h; exact absurd h (fun hc => Except.noConfusion hc)
    | ok did =>
      simp only [h2] at h
      cases h3 : fetch wid did with
      | error e => simp only [h3] at h; exact absurd h (fun hc => Except.noConfusion hc)
      | ok df =>
        simp only [h3] at h
        by_cases he : df.isEmpty = true
        · rw [if_pos he] at h
          exact absurd (Except.ok.inj h) (fun hc => Option.noConfusion hc)
        · rw [if_neg he] at h
          cases h4 : cellGet cols d "name" with
          | error e => simp only [h4] at h; exact absurd h (fun hc => Except.noConfusion hc)
          | ok dname =>
            simp only [h4] at h
            cases h5 : cellGet cols d "workspaceName" with
            | error e => simp only [h5] at h; exact absurd h (fun hc => Except.noConfusion hc)
            | ok wname =>
              simp only [h5] at h
              refine ⟨df, ?_⟩
              have ht := (Option.some.inj (Except.ok.inj h)).symm
              rw [ht, cellGet_ok_val h1, cellGet_ok_val h2, cellGet_ok_val h4,
                cellGet_ok_val h5]
              rfl

/- ### Annotation lemmas -/

lemma wsAnnot_rows (w : Row) (t : Table) :
    (wsAnnot w t).rows =
      (t.rows.map (rowSet "workspaceId" (rowVal w "id"))).map
        (rowSet "workspaceName" (rowVal w "name")) := rfl

lemma dsAnnot_rows (d : Row) (t : Table) :
    (dsAnnot d t).rows =
      (((t.rows.map (rowSet "datasetId" (rowVal d "id"))).map
        (rowSet "datasetName" (rowVal d "name"))).map
        (rowSet "workspaceId" (rowVal d "workspaceId"))).map
        (rowSet "workspaceName" (rowVal d "workspaceName")) := rfl

lemma wsAnnot_rows_length (w : Row) (t : Table) :
    (wsAnnot w t).rows.length = t.rows.length := by
  rw [wsAnnot_rows, List.length_map, List.length_map]

lemma dsAnnot_rows_length (d : Row) (t : Table) :
    (dsAnnot d t).rows.length = t.rows.length := by
  rw [dsAnnot_rows]
  simp only [List.length_map]

lemma wsAnnot_rowVals {w : Row} {t : Table} :
    ∀ r ∈ (wsAnnot w t).rows,
      rowVal r "workspaceId" = rowVal w "id" ∧
      rowVal r "workspaceName" = rowVal w "name" := by
  intro r hr
  rw [wsAnnot_rows] at hr
  obtain ⟨r1, hr1, rfl⟩ := List.mem_map.mp hr
  obtain ⟨r0, _, rfl⟩ := List.mem_map.mp hr1
  constructor
  · rw [rowVal_rowSet_other _ _ (show "workspaceName" ≠ "workspaceId" by decide)]
    exact rowVal_rowSet_self _ _ _
  · exact rowVal_rowSet_self _ _ _

lemma dsAnnot_rowVals {d : Row} {t : Table} :
    ∀ r ∈ (dsAnnot d t).rows,
      rowVal r "datasetId" = rowVal d "id" ∧
      rowVal r "datasetName" = rowVal d "name" ∧
      rowVal r "workspaceId" = rowVal d "workspaceId" ∧
      rowVal r "workspaceName" = rowVal d "workspaceName" := by
  intro r hr
  rw [dsAnnot_rows] at hr
  obtain ⟨r3, hr3, rfl⟩ := List.mem_map.mp hr
  obtain ⟨r2, hr2, rfl⟩ := List.mem_map.mp hr3
  obtain ⟨r1, hr1, rfl⟩ := List.mem_map.mp hr2
  obtain ⟨r0, _, rfl⟩ := List.mem_map.mp hr1
  refine ⟨?_, ?_, ?_, ?_⟩
  · rw [rowVal_rowSet_other _ _ (show "workspaceName" ≠ "datasetId" by decide),
      rowVal_rowSet_other _ _ (show "workspaceId" ≠ "datasetId" by decide),
      rowVal_rowSet_other _ _ (show "datasetName" ≠ "datasetId" by decide)]
    exact rowVal_rowSet_self _ _ _
  · rw [rowVal_rowSet_other _ _ (show "workspaceName" ≠ "datasetName" by decide),
      rowVal_rowSet_other _ _ (show "workspaceId" ≠ "datasetName" by decide)]
    exact rowVal_rowSet_self _ _ _
  · rw [rowVal_rowSet_other _ _ (show "workspaceName" ≠ "workspaceId" by decide)]
    exact rowVal_rowSet_self _ _ _
  · exact rowVal_rowSet_self _ _ _

/- ### Filter lemmas -/

lemma filterEq_ok {t : Table} {c : String} {v : Cell} (h : t.cols.contains c = true) :
    t.filterEq c v = .ok ⟨t.cols, t.rows.filter (fun r => rowVal r c == v)⟩ := by
  unfold Table.filterEq
  rw [if_pos h]

lemma maskOf_ok_applyMask {pat c : String} :
    ∀ {rows : List Row} {m : List Bool}, maskOf pat c rows = .ok m →
    applyMask rows m = rows.filter (fun r =>
      match rowVal r c with
      | Cell.s v => !(strContains v pat)
      | _ => false) := by
  intro rows
  induction rows with
  | nil =>
    intro m h
    simp only [maskOf] at h
    injection h with h
    subst h
    rfl
  | cons r rest ih =>
    intro m h
    simp only [maskOf] at h
    cases hv : rowVal r c with
    | s v =>
      rw [hv] at h
      simp only [nameKeep] at h
      cases hrest : maskOf pat c rest with
      | error e => rw [hrest] at h; exact absurd h (fun hc => Except.noConfusion hc)
      | ok bs =>
        rw [hrest] at h
        injection h with h
        subst h
        rw [List.filter_cons]
        by_cases hb : (!(strContains v pat)) = true
        · rw [applyMask, if_pos hb, ih hrest]
          rw [if_pos (by rw [hv]; exact hb)]
        · rw [applyMask, if_neg hb, ih hrest]
          rw [if_neg (by rw [hv]; exact hb)]
    | b v =>
      rw [hv] at h
      simp only [nameKeep] at h
      exact absurd h (fun hc => Except.noConfusion hc)
    | i v =>
      rw [hv] at h
      simp only [nameKeep] at h
      exact absurd h (fun hc => Except.noConfusion hc)
    | null =>
      rw [hv] at h
      simp only [nameKeep] at h
      exact absurd h (fun hc => Except.noConfusion hc)

lemma filterEq_ok_inv {t : Table} {c : String} {v : Cell} {kept : Table}
    (h : t.filterEq c v = .ok kept) :
    t.cols.contains c = true ∧ kept.cols = t.cols ∧
      kept.rows = t.rows.filter (fun r => rowVal r c == v) := by
  unfold Table.filterEq at h
  by_cases hc : t.cols.contains c = true
  · rw [if_pos hc] at h
    have hk := (Except.ok.inj h).symm
    rw [hk]
    exact ⟨hc, rfl, rfl⟩
  · rw [if_neg hc] at h
    exact absurd h (fun hx => Except.noConfusion hx)

lemma filterNotContains_ok_inv {t : Table} {c pat : String} {kept : Table}
    (h : t.filterNotContains c pat = .ok kept) :
    t.cols.contains c = true ∧ kept.cols = t.cols ∧
      kept.rows = t.rows.filter (fun r =>
        match rowVal r c with
        | Cell.s v => !(strContains v pat)
        | _ => false) := by
  unfold Table.filterNotContains at h
  by_cases hc : t.cols.contains c = true
  · rw [if_pos hc] at h
    cases hm : maskOf pat c t.rows with
    | error e => rw [hm] at h; exact absurd h (fun hx => Except.noConfusion hx)
    | ok m =>
      rw [hm] at h
      have hk := (Except.ok.inj h).symm
      rw [hk]
      exact ⟨hc, rfl, maskOf_ok_applyMask hm⟩
  · rw [if_neg hc] at h
    exact absurd h (fun hx => Except.noConfusion hx)

/-- Every row a dataset-level fan-out loop produces carries the four
context values of one of the iterated parent rows. -/
lemma fanout_dsBody_mem {fetch : Cell → Cell → Except String Table} {cols : List String}
    {logId : Row → Except String Cell} {pfx : String} {logs0 : List String}
    {rows : List Row} {T : Table} {logs : List String}
    (hrun : fanoutLoop (dsBody fetch cols) logId pfx logs0 rows = .ok (T, logs)) :
    ∀ r ∈ T.rows, ∃ d ∈ rows,
      rowVal r "datasetId" = rowVal d "id" ∧
      rowVal r "datasetName" = rowVal d "name" ∧
      rowVal r "workspaceId" = rowVal d "workspaceId" ∧
      rowVal r "workspaceName" = rowVal d "workspaceName" := by
  intro r hr
  have hm := fanoutFold_mem (dsBody fetch cols) logId pfx rows (Table.empty, logs0) T logs
    hrun r hr
  rcases hm with h | ⟨d, hd, t, hbt, hrt⟩
  · simp [Table.empty] at h
  · obtain ⟨df, rfl⟩ := dsBody_some_inv hbt
    obtain ⟨h1, h2, h3, h4⟩ := dsAnnot_rowVals r hrt
    exact ⟨d, hd, h1, h2, h3, h4⟩

/- ### Claim theorems -/

/-- Claim C9: parent-context column injection is idempotent — applying
the workspace-level annotation (workspaceId/workspaceName assignment) or
the dataset-level annotation (datasetId/datasetName/workspaceId/
workspaceName assignment) to a table that already carries those columns
with the same values changes nothing: applying it twice equals applying
it once. -/
theorem claim_C9_injection_idempotent (w d : Row) (t : Table) :
    wsAnnot w (wsAnnot w t) = wsAnnot w t ∧ dsAnnot d (dsAnnot d t) = dsAnnot d t := by
  constructor
  · have h1 : colFixed (wsAnnot w t) "workspaceId" (rowVal w "id") :=
      colFixed_setCol_other "workspaceName" (rowVal w "name") (by decide)
        (colFixed_setCol_self t "workspaceId" (rowVal w "id"))
    have h2 : colFixed (wsAnnot w t) "workspaceName" (rowVal w "name") :=
      colFixed_setCol_self _ "workspaceName" (rowVal w "name")
    show ((wsAnnot w t).setCol "workspaceId" (rowVal w "id")).setCol "workspaceName"
      (rowVal w "name") = wsAnnot w t
    rw [setCol_fixed_id h1, setCol_fixed_id h2]
  · have h1 : colFixed (dsAnnot d t) "datasetId" (rowVal d "id") :=
      colFixed_setCol_other "workspaceName" (rowVal d "workspaceName") (by decide)
        (colFixed_setCol_other "workspaceId" (rowVal d "workspaceId") (by decide)
          (colFixed_setCol_other "datasetName" (rowVal d "name") (by decide)
            (colFixed_setCol_self _ "datasetId" (rowVal d "id"))))
    have h2 : colFixed (dsAnnot d t) "datasetName" (rowVal d "name") :=
      colFixed_setCol_other "workspaceName" (rowVal d "workspaceName") (by decide)
        (colFixed_setCol_other "workspaceId" (rowVal d "workspaceId") (by decide)
          (colFixed_setCol_self _ "datasetName" (rowVal d "name")))
    have h3 : colFixed (dsAnnot d t) "workspaceId" (rowVal d "workspaceId") :=
      colFixed_setCol_other "workspaceName" (rowVal d "workspaceName") (by decide)
        (colFixed_setCol_self _ "workspaceId" (rowVal d "workspaceId"))
    have h4 : colFixed (dsAnnot d t) "workspaceName" (rowVal d "workspaceName") :=
      colFixed_setCol_self _ "workspaceName" (rowVal d "workspaceName")
    show ((((dsAnnot d t).setCol "datasetId" (rowVal d "id")).setCol "datasetName"
      (rowVal d "name")).setCol "workspaceId" (rowVal d "workspaceId")).setCol
      "workspaceName" (rowVal d "workspaceName") = dsAnnot d t
    rw [setCol_fixed_id h1, setCol_fixed_id h2, setCol_fixed_id h3, setCol_fixed_id h4]

/-- Claim C10: extract_connection_details is total over its public
interface — for every input value and every behaviour of the
literal-eval collaborator it returns (without raising) a record whose
fields are exactly server, database, connectionString, url, path, each
holding the corresponding entry of the parsed dictionary when present
and None otherwise (all five None for non-string, non-dict, or
unparsable input). -/
theorem claim_C10_extract_total (litEval : String → Except String Json) (x : Json) :
    (extract_connection_details litEval x).map Prod.fst = fiveKeys ∧
    extract_connection_details litEval x =
      fiveKeys.map (fun k => (k, (parsedDict litEval x).bind (fun kvs => jsonObjGet kvs k))) := by
  constructor
  · cases x with
    | str s =>
      cases hres : litEval s with
      | ok j =>
        cases j <;> simp [extract_connection_details, hres, fiveOf, none5, fiveKeys]
      | error e =>
        simp [extract_connection_details, hres, none5, fiveKeys]
    | obj kvs => simp [extract_connection_details, fiveOf, fiveKeys]
    | bool bv => simp [extract_connection_details, none5, fiveKeys]
    | num n => simp [extract_connection_details, none5, fiveKeys]
    | null => simp [extract_connection_details, none5, fiveKeys]
    | arr xs => simp [extract_connection_details, none5, fiveKeys]
  · cases x with
    | str s =>
      cases hres : litEval s with
      | ok j =>
        cases j <;> simp [extract_connection_details, parsedDict, hres, fiveOf, none5]
      | error e =>
        simp [extract_connection_details, parsedDict, hres, none5]
    | obj kvs => simp [extract_connection_details, parsedDict, fiveOf]
    | bool bv => simp [extract_connection_details, parsedDict, none5]
    | num n => simp [extract_connection_details, parsedDict, none5]
    | null => simp [extract_connection_details, parsedDict, none5]
    | arr xs => simp [extract_connection_details, parsedDict, none5]

/-- Claim C7: every embedded point query returns an empty table (and does
not raise) on any HTTP response whose status is not 200; only the HTTP
transport itself can raise, outside these functions. -/
theorem claim_C7_non_success_empty (resp : Response) (h : resp.status ≠ 200) :
    get_dataset_refresh_history_by_id resp = .ok Table.empty ∧
    get_dataset_users_by_id resp = .ok Table.empty ∧
    get_dataflow_refresh_history_by_id resp = .ok Table.empty ∧
    get_dataset_tables_by_id resp = .ok Table.empty ∧
    get_all_gateways resp = .ok Table.empty := by
  have hb : (resp.status == 200) = false := beq_eq_false_iff_ne.mpr h
  refine ⟨?_, ?_, ?_, ?_, ?_⟩
  · unfold get_dataset_refresh_history_by_id
    rw [if_neg (by simp [hb])]
  · unfold get_dataset_users_by_id
    rw [if_neg (by simp [hb])]
  · unfold get_dataflow_refresh_history_by_id
    rw [if_neg (by simp [hb])]
  · unfold get_dataset_tables_by_id runInfoQuery
    rw [if_neg (by simp [hb])]
  · unfold get_all_gateways
    rw [if_neg (by simp [hb])]

/-- Witness for claim C7 at the concrete status 404. -/
theorem claim_C7_non_success_empty_witness :
    get_dataset_refresh_history_by_id ⟨404, Json.null⟩ = .ok Table.empty ∧
    get_dataset_users_by_id ⟨404, Json.null⟩ = .ok Table.empty ∧
    get_dataflow_refresh_history_by_id ⟨404, Json.null⟩ = .ok Table.empty ∧
    get_dataset_tables_by_id ⟨404, Json.null⟩ = .ok Table.empty ∧
    get_all_gateways ⟨404, Json.null⟩ = .ok Table.empty :=
  claim_C7_non_success_empty ⟨404, Json.null⟩ (by decide)

/-- Counterexample to claim C8: on a 200 response whose JSON object body
has no `value` key, the gateway listing fetchers return an empty table
instead of raising, while the core-client listing fetcher raises a
KeyError — so the claim's "holds for all listing fetchers, including
get_all_gateways and get_gateway_datasources" is false. -/
theorem claim_C8_counterexample :
    get_all_gateways ⟨200, Json.obj []⟩ = .ok Table.empty ∧
    get_gateway_datasources ⟨200, Json.obj []⟩ = .ok Table.empty ∧
    get_dataflow_refresh_history_by_id ⟨200, Json.obj []⟩ = .error "KeyError: value" :=
  ⟨rfl, rfl, rfl⟩

/-- Claim C8 as amended: on a success (200) response whose object body
lacks the `value` key, the core-client listing fetchers raise a KeyError
(demoted at the bulk layer), but the gateway listing fetchers
get_all_gateways and get_gateway_datasources default the missing key to
an empty list and return an empty table without raising. -/
theorem claim_C8_amended (resp : Response) (kvs : List (String × Json))
    (hst : resp.status = 200) (hbody : resp.body = Json.obj kvs)
    (hmiss : jsonObjGet kvs "value" = none) :
    get_dataflow_refresh_history_by_id resp = .error "KeyError: value" ∧
    get_dataset_refresh_history_by_id resp = .error "KeyError: value" ∧
    get_all_gateways resp = .ok Table.empty ∧
    get_gateway_datasources resp = .ok Table.empty := by
  have hb : (resp.status == 200) = true := by simp [hst]
  refine ⟨?_, ?_, ?_, ?_⟩
  · unfold get_dataflow_refresh_history_by_id
    rw [if_pos hb]
    simp only [hbody, jsonGetKey, hmiss]
    rfl
  · unfold get_dataset_refresh_history_by_id
    rw [if_pos hb]
    simp only [hbody, jsonGetKey, hmiss]
    rfl
  · unfold get_all_gateways
    rw [if_pos hb]
    simp only [hbody, hmiss]
    rfl
  · unfold get_gateway_datasources
    rw [if_pos hb]
    simp only [hbody, hmiss]
    rfl

/-- Witness for the amended claim C8 at a concrete envelope-less body. -/
theorem claim_C8_amended_witness :
    get_dataflow_refresh_history_by_id ⟨200, Json.obj [("odata", Json.null)]⟩ =
      .error "KeyError: value" ∧
    get_dataset_refresh_history_by_id ⟨200, Json.obj [("odata", Json.null)]⟩ =
      .error "KeyError: value" ∧
    get_all_gateways ⟨200, Json.obj [("odata", Json.null)]⟩ = .ok Table.empty ∧
    get_gateway_datasources ⟨200, Json.obj [("odata", Json.null)]⟩ = .ok Table.empty :=
  claim_C8_amended ⟨200, Json.obj [("odata", Json.null)]⟩ [("odata", Json.null)]
    rfl rfl rfl

/-- Counterexample to claim C6: the schema point queries remove the
bracket characters without inserting a dot — a returned column named
Table[Column] becomes TableColumn, not Table.Column. -/
theorem claim_C6_counterexample :
    get_dataset_tables_by_id ⟨200, Json.obj [("results", Json.arr [Json.obj [("tables",
      Json.arr [Json.obj [("rows", Json.arr [Json.obj [("Table[Column]",
        Json.num 1)]])]])]])]⟩ =
      .ok ⟨["TableColumn"], [[("TableColumn", Cell.i 1)]]⟩ ∧
    stripBrackets "Table[Column]" = "TableColumn" ∧ ("TableColumn" : String) ≠ "Table.Column" :=
  ⟨rfl, rfl, by decide⟩

/-- Claim C6 as amended: each of the four schema-introspection point
queries strips bracket decoration by deleting the bracket characters
from every returned column name (Table[Column] becomes TableColumn),
leaving the rest of the frame unchanged. -/
theorem claim_C6_amended (resp : Response) (rowsJ : Json) (raw : Table)
    (hst : resp.status = 200) (hrows : parseQueryRows resp.body = .ok rowsJ)
    (hraw : recordsToTable rowsJ = .ok raw) (hne : raw.isEmpty = false) :
    get_dataset_tables_by_id resp = .ok (raw.renameCols stripBrackets) ∧
    get_dataset_columns_by_id resp = .ok (raw.renameCols stripBrackets) ∧
    get_dataset_measures_by_id resp = .ok (raw.renameCols stripBrackets) ∧
    get_dataset_calc_dependencies_by_id resp = .ok (raw.renameCols stripBrackets) ∧
    (raw.renameCols stripBrackets).cols = raw.cols.map stripBrackets ∧
    stripBrackets "Table[Column]" = "TableColumn" := by
  have hb : (resp.status == 200) = true := by simp [hst]
  have hrun : runInfoQuery resp = .ok (raw.renameCols stripBrackets) := by
    unfold runInfoQuery
    rw [if_pos hb]
    simp only [hrows, hraw]
    rw [if_neg (by simp [hne])]
  exact ⟨hrun, hrun, hrun, hrun, rfl, rfl⟩

/-- Witness for the amended claim C6 at a concrete query response. -/
theorem claim_C6_amended_witness :
    get_dataset_tables_by_id ⟨200, Json.obj [("results", Json.arr [Json.obj [("tables",
      Json.arr [Json.obj [("rows", Json.arr [Json.obj [("Table[Column]",
        Json.num 1)]])]])]])]⟩ =
      .ok ((⟨["Table[Column]"], [[("Table[Column]", Cell.i 1)]]⟩ : Table).renameCols
        stripBrackets) ∧
    get_dataset_columns_by_id ⟨200, Json.obj [("results", Json.arr [Json.obj [("tables",
      Json.arr [Json.obj [("rows", Json.arr [Json.obj [("Table[Column]",
        Json.num 1)]])]])]])]⟩ =
      .ok ((⟨["Table[Column]"], [[("Table[Column]", Cell.i 1)]]⟩ : Table).renameCols
        stripBrackets) ∧
    get_dataset_measures_by_id ⟨200, Json.obj [("results", Json.arr [Json.obj [("tables",
      Json.arr [Json.obj [("rows", Json.arr [Json.obj [("Table[Column]",
        Json.num 1)]])]])]])]⟩ =
      .ok ((⟨["Table[Column]"], [[("Table[Column]", Cell.i 1)]]⟩ : Table).renameCols
        stripBrackets) ∧
    get_dataset_calc_dependencies_by_id ⟨200, Json.obj [("results", Json.arr [Json.obj
      [("tables", Json.arr [Json.obj [("rows", Json.arr [Json.obj [("Table[Column]",
        Json.num 1)]])]])]])]⟩ =
      .ok ((⟨["Table[Column]"], [[("Table[Column]", Cell.i 1)]]⟩ : Table).renameCols
        stripBrackets) ∧
    ((⟨["Table[Column]"], [[("Table[Column]", Cell.i 1)]]⟩ : Table).renameCols
      stripBrackets).cols = (["Table[Column]"] : List String).map stripBrackets ∧
    stripBrackets "Table[Column]" = "TableColumn" :=
  claim_C6_amended ⟨200, Json.obj [("results", Json.arr [Json.obj [("tables",
      Json.arr [Json.obj [("rows", Json.arr [Json.obj [("Table[Column]",
        Json.num 1)]])]])]])]⟩
    (Json.arr [Json.obj [("Table[Column]", Json.num 1)]])
    ⟨["Table[Column]"], [[("Table[Column]", Cell.i 1)]]⟩ rfl rfl rfl rfl

/-- Claim C1: when every per-parent point query succeeds, a bulk fan-out
returns the concatenation, in parent enumeration order, of the
per-parent results, so the row count is the sum of the per-parent row
counts, and every contributed row carries the parent's context
identifiers — workspaceId/workspaceName for the one-level
get_all_datasets, plus datasetId/datasetName for the two-level
get_all_dataset_refresh_history. -/
theorem claim_C1_success_fanout
    (wsT : Table) (fetchDs : Cell → Except String Table) (tblW : Row → Table)
    (dsT : Table) (logs0 : List String) (fetchRh : Cell → Cell → Except String Table)
    (tblD : Row → Table)
    (hwid : wsT.cols.contains "id" = true) (hwname : wsT.cols.contains "name" = true)
    (hws : ∀ w ∈ wsT.rows, fetchDs (rowVal w "id") = .ok (tblW w) ∧
      ((tblW w).rows = [] ∨ (tblW w).cols ≠ []))
    (hdwid : dsT.cols.contains "workspaceId" = true)
    (hdid : dsT.cols.contains "id" = true)
    (hdname : dsT.cols.contains "name" = true)
    (hdwname : dsT.cols.contains "workspaceName" = true)
    (hdref : dsT.cols.contains "isRefreshable" = true)
    (hds : ∀ d ∈ refreshableRows dsT,
      fetchRh (rowVal d "workspaceId") (rowVal d "id") = .ok (tblD d) ∧
      ((tblD d).rows = [] ∨ (tblD d).cols ≠ [])) :
    (∃ T logs, get_all_datasets (.ok wsT) fetchDs = .ok (T, logs) ∧
      T.rows = wsT.rows.flatMap (fun w => (wsAnnot w (tblW w)).rows) ∧
      T.rows.length = (wsT.rows.map (fun w => (tblW w).rows.length)).sum ∧
      ∀ w ∈ wsT.rows, ∀ r ∈ (wsAnnot w (tblW w)).rows,
        rowVal r "workspaceId" = rowVal w "id" ∧
        rowVal r "workspaceName" = rowVal w "name") ∧
    (∃ T logs, get_all_dataset_refresh_history (.ok (dsT, logs0)) fetchRh = .ok (T, logs) ∧
      T.rows = (refreshableRows dsT).flatMap (fun d => (dsAnnot d (tblD d)).rows) ∧
      T.rows.length = ((refreshableRows dsT).map (fun d => (tblD d).rows.length)).sum ∧
      ∀ d ∈ refreshableRows dsT, ∀ r ∈ (dsAnnot d (tblD d)).rows,
        rowVal r "datasetId" = rowVal d "id" ∧
        rowVal r "datasetName" = rowVal d "name" ∧
        rowVal r "workspaceId" = rowVal d "workspaceId" ∧
        rowVal r "workspaceName" = rowVal d "workspaceName") := by
  constructor
  · have hclass : ∀ w ∈ wsT.rows,
        (wsBody fetchDs wsT.cols w = .ok none ∧
          (fun w => (wsAnnot w (tblW w)).rows) w = [] ∧
          (fun (_ : Row) => ([] : List String)) w = []) ∨
        (∃ t, wsBody fetchDs wsT.cols w = .ok (some t) ∧
          (fun w => (wsAnnot w (tblW w)).rows) w = t.rows ∧
          (fun (_ : Row) => ([] : List String)) w = []) ∨
        (∃ e cid, wsBody fetchDs wsT.cols w = .error e ∧
          cellGet wsT.cols w "id" = .ok cid ∧
          (fun w => (wsAnnot w (tblW w)).rows) w = [] ∧
          (fun (_ : Row) => ([] : List String)) w =
            ["Error processing workspace " ++ cellStr cid ++ ": " ++ e]) := by
      intro w hw
      obtain ⟨hf, hwf⟩ := hws w hw
      by_cases hrows : (tblW w).rows = []
      · refine Or.inl ⟨wsBody_ok_empty hwid hf hrows, ?_, rfl⟩
        show (wsAnnot w (tblW w)).rows = []
        rw [wsAnnot_rows, hrows]
        rfl
      · have hcols : (tblW w).cols ≠ [] := hwf.resolve_left hrows
        exact Or.inr (Or.inl ⟨wsAnnot w (tblW w),
          wsBody_ok_nonempty hwid hwname hf hrows hcols, rfl, rfl⟩)
    obtain ⟨T, hT, hTrows⟩ := fanoutFold_spec (wsBody fetchDs wsT.cols)
      (fun w => cellGet wsT.cols w "id") "Error processing workspace "
      (fun w => (wsAnnot w (tblW w)).rows) (fun _ => []) wsT.rows Table.empty [] hclass
    refine ⟨T, [] ++ wsT.rows.flatMap (fun _ => []), hT, ?_, ?_, ?_⟩
    · rw [hTrows]
      rfl
    · rw [hTrows]
      show (wsT.rows.flatMap (fun w => (wsAnnot w (tblW w)).rows)).length = _
      rw [List.length_flatMap]
      refine congrArg List.sum (List.map_congr_left ?_)
      intro w _
      exact wsAnnot_rows_length w (tblW w)
    · intro w _ r hr
      exact wsAnnot_rowVals r hr
  · have hclass : ∀ d ∈ refreshableRows dsT,
        (dsBody fetchRh dsT.cols d = .ok none ∧
          (fun d => (dsAnnot d (tblD d)).rows) d = [] ∧
          (fun (_ : Row) => ([] : List String)) d = []) ∨
        (∃ t, dsBody fetchRh dsT.cols d = .ok (some t) ∧
          (fun d => (dsAnnot d (tblD d)).rows) d = t.rows ∧
          (fun (_ : Row) => ([] : List String)) d = []) ∨
        (∃ e cid, dsBody fetchRh dsT.cols d = .error e ∧
          cellGet dsT.cols d "id" = .ok cid ∧
          (fun d => (dsAnnot d (tblD d)).rows) d = [] ∧
          (fun (_ : Row) => ([] : List String)) d =
            ["Error processing dataset refresh history " ++ cellStr cid ++ ": " ++ e]) := by
      intro d hd
      obtain ⟨hf, hwf⟩ := hds d hd
      by_cases hrows : (tblD d).rows = []
      · refine Or.inl ⟨dsBody_ok_empty hdwid hdid hf hrows, ?_, rfl⟩
        show (dsAnnot d (tblD d)).rows = []
        rw [dsAnnot_rows, hrows]
        rfl
      · have hcols : (tblD d).cols ≠ [] := hwf.resolve_left hrows
        exact Or.inr (Or.inl ⟨dsAnnot d (tblD d),
          dsBody_ok_nonempty hdwid hdid hdname hdwname hf hrows hcols, rfl, rfl⟩)
    obtain ⟨T, hT, hTrows⟩ := fanoutFold_spec (dsBody fetchRh dsT.cols)
      (fun d => cellGet dsT.cols d "id") "Error processing dataset refresh history "
      (fun d => (dsAnnot d (tblD d)).rows) (fun _ => []) (refreshableRows dsT)
      Table.empty logs0 hclass
    refine ⟨T, logs0 ++ (refreshableRows dsT).flatMap (fun _ => []), ?_, ?_, ?_, ?_⟩
    · show (match dsT.filterEq "isRefreshable" (Cell.s "True") with
        | .error e => Except.error e
        | .ok refreshable =>
          fanoutLoop (dsBody fetchRh refreshable.cols)
            (fun d => cellGet refreshable.cols d "id")
            "Error processing dataset refresh history " logs0 refreshable.rows) = _
      rw [filterEq_ok hdref]
      exact hT
    · rw [hTrows]
      rfl
    · rw [hTrows]
      show ((refreshableRows dsT).flatMap (fun d => (dsAnnot d (tblD d)).rows)).length = _
      rw [List.length_flatMap]
      refine congrArg List.sum (List.map_congr_left ?_)
      intro d _
      exact dsAnnot_rows_length d (tblD d)
    · intro d _ r hr
      exact dsAnnot_rowVals r hr

/-- Witness for claim C1 at a concrete one-workspace, one-dataset
instance. -/
theorem claim_C1_success_fanout_witness :
    (∃ T logs, get_all_datasets (.ok wsW) fetchDsW = .ok (T, logs) ∧
      T.rows = wsW.rows.flatMap (fun w => (wsAnnot w (tblWF w)).rows) ∧
      T.rows.length = (wsW.rows.map (fun w => (tblWF w).rows.length)).sum ∧
      ∀ w ∈ wsW.rows, ∀ r ∈ (wsAnnot w (tblWF w)).rows,
        rowVal r "workspaceId" = rowVal w "id" ∧
        rowVal r "workspaceName" = rowVal w "name") ∧
    (∃ T logs, get_all_dataset_refresh_history (.ok (dsW, [])) fetchRhW = .ok (T, logs) ∧
      T.rows = (refreshableRows dsW).flatMap (fun d => (dsAnnot d (tblDF d)).rows) ∧
      T.rows.length = ((refreshableRows dsW).map (fun d => (tblDF d).rows.length)).sum ∧
      ∀ d ∈ refreshableRows dsW, ∀ r ∈ (dsAnnot d (tblDF d)).rows,
        rowVal r "datasetId" = rowVal d "id" ∧
        rowVal r "datasetName" = rowVal d "name" ∧
        rowVal r "workspaceId" = rowVal d "workspaceId" ∧
        rowVal r "workspaceName" = rowVal d "workspaceName") :=
  claim_C1_success_fanout wsW fetchDsW tblWF dsW [] fetchRhW tblDF
    (by decide) (by decide) (by decide) (by decide) (by decide) (by decide)
    (by decide) (by decide) (by decide)

/-- Claim C2: when the per-parent call fails for one parent while the
calls for the other parents succeed, the bulk fan-out still returns
(without any exception escaping) the concatenated annotated rows of the
other parents' children in parent enumeration order, and logs exactly
one diagnostic naming the failed parent. -/
theorem claim_C2_partial_failure
    (cols : List String) (pre post : List Row) (bad : Row)
    (fetch : Cell → Except String Table) (tblW : Row → Table) (e : String)
    (hid : cols.contains "id" = true) (hname : cols.contains "name" = true)
    (hgood : ∀ w ∈ pre ++ post, fetch (rowVal w "id") = .ok (tblW w) ∧
      ((tblW w).rows = [] ∨ (tblW w).cols ≠ []))
    (hbad : fetch (rowVal bad "id") = .error e) :
    ∃ T, get_all_datasets (.ok ⟨cols, pre ++ bad :: post⟩) fetch =
      .ok (T, ["Error processing workspace " ++ cellStr (rowVal bad "id") ++ ": " ++ e]) ∧
      T.rows = (pre ++ post).flatMap (fun w => (wsAnnot w (tblW w)).rows) := by
  have hnb : ∀ w ∈ pre ++ post, ¬(w = bad) := by
    intro w hw hwb
    have h1 := (hgood w hw).1
    rw [hwb, hbad] at h1
    exact Except.noConfusion h1
  have hclass : ∀ w ∈ pre ++ bad :: post,
      (wsBody fetch cols w = .ok none ∧
        (fun w => if w = bad then [] else (wsAnnot w (tblW w)).rows) w = [] ∧
        (fun w => if w = bad
          then ["Error processing workspace " ++ cellStr (rowVal bad "id") ++ ": " ++ e]
          else []) w = []) ∨
      (∃ t, wsBody fetch cols w = .ok (some t) ∧
        (fun w => if w = bad then [] else (wsAnnot w (tblW w)).rows) w = t.rows ∧
        (fun w => if w = bad
          then ["Error processing workspace " ++ cellStr (rowVal bad "id") ++ ": " ++ e]
          else []) w = []) ∨
      (∃ e2 cid, wsBody fetch cols w = .error e2 ∧
        cellGet cols w "id" = .ok cid ∧
        (fun w => if w = bad then [] else (wsAnnot w (tblW w)).rows) w = [] ∧
        (fun w => if w = bad
          then ["Error processing workspace " ++ cellStr (rowVal bad "id") ++ ": " ++ e]
          else []) w = ["Error processing workspace " ++ cellStr cid ++ ": " ++ e2]) := by
    intro w hw
    by_cases hwb : w = bad
    · subst hwb
      exact Or.inr (Or.inr ⟨e, rowVal w "id", wsBody_error_fetch hid hbad,
        cellGet_ok w hid, if_pos rfl, if_pos rfl⟩)
    · have hw' : w ∈ pre ++ post := by
        rcases List.mem_append.mp hw with h | h
        · exact List.mem_append.mpr (Or.inl h)
        · rcases List.mem_cons.mp h with h | h
          · exact absurd h hwb
          · exact List.mem_append.mpr (Or.inr h)
      obtain ⟨hf, hwf⟩ := hgood w hw'
      by_cases hrows : (tblW w).rows = []
      · refine Or.inl ⟨wsBody_ok_empty hid hf hrows, ?_, if_neg hwb⟩
        show (if w = bad then [] else (wsAnnot w (tblW w)).rows) = []
        rw [if_neg hwb, wsAnnot_rows, hrows]
        rfl
      · have hcols : (tblW w).cols ≠ [] := hwf.resolve_left hrows
        refine Or.inr (Or.inl ⟨wsAnnot w (tblW w),
          wsBody_ok_nonempty hid hname hf hrows hcols, ?_, if_neg hwb⟩)
        show (if w = bad then [] else (wsAnnot w (tblW w)).rows) = (wsAnnot w (tblW w)).rows
        rw [if_neg hwb]
  obtain ⟨T, hT, hTrows⟩ := fanoutFold_spec (wsBody fetch cols)
    (fun w => cellGet cols w "id") "Error processing workspace "
    (fun w => if w = bad then [] else (wsAnnot w (tblW w)).rows)
    (fun w => if w = bad
      then ["Error processing workspace " ++ cellStr (rowVal bad "id") ++ ": " ++ e]
      else []) (pre ++ bad :: post) Table.empty [] hclass
  have hmpre : ∀ w ∈ pre, (fun w => if w = bad
      then ["Error processing workspace " ++ cellStr (rowVal bad "id") ++ ": " ++ e]
      else []) w = (fun (_ : Row) => ([] : List String)) w := by
    intro w hw
    exact if_neg (hnb w (List.mem_append.mpr (Or.inl hw)))
  have hmpost : ∀ w ∈ post, (fun w => if w = bad
      then ["Error processing workspace " ++ cellStr (rowVal bad "id") ++ ": " ++ e]
      else []) w = (fun (_ : Row) => ([] : List String)) w := by
    intro w hw
    exact if_neg (hnb w (List.mem_append.mpr (Or.inr hw)))
  have hgpre : ∀ w ∈ pre, (fun w => if w = bad then [] else (wsAnnot w (tblW w)).rows) w =
      (fun w => (wsAnnot w (tblW w)).rows) w := by
    intro w hw
    exact if_neg (hnb w (List.mem_append.mpr (Or.inl hw)))
  have hgpost : ∀ w ∈ post, (fun w => if w = bad then [] else (wsAnnot w (tblW w)).rows) w =
      (fun w => (wsAnnot w (tblW w)).rows) w := by
    intro w hw
    exact if_neg (hnb w (List.mem_append.mpr (Or.inr hw)))
  have hpre0 : pre.flatMap (fun (_ : Row) => ([] : List String)) = [] := by simp
  have hpost0 : post.flatMap (fun (_ : Row) => ([] : List String)) = [] := by simp
  have hlogs : ([] : List String) ++ (pre ++ bad :: post).flatMap (fun w => if w = bad
      then ["Error processing workspace " ++ cellStr (rowVal bad "id") ++ ": " ++ e]
      else []) = ["Error processing workspace " ++ cellStr (rowVal bad "id") ++ ": " ++ e] := by
    rw [List.nil_append, List.flatMap_append, List.flatMap_cons,
      List.flatMap_congr hmpre, List.flatMap_congr hmpost, hpre0, hpost0, if_pos rfl]
    rfl
  have hrows2 : Table.empty.rows ++ (pre ++ bad :: post).flatMap
      (fun w => if w = bad then [] else (wsAnnot w (tblW w)).rows) =
      (pre ++ post).flatMap (fun w => (wsAnnot w (tblW w)).rows) := by
    show ([] : List Row) ++ _ = _
    rw [List.nil_append, List.flatMap_append, List.flatMap_cons,
      List.flatMap_congr hgpre, List.flatMap_congr hgpost, if_pos rfl,
      List.nil_append, List.flatMap_append]
  refine ⟨T, ?_, ?_⟩
  · rw [← hlogs]
    exact hT
  · rw [hTrows]
    exact hrows2

/-- Witness for claim C2 at the three-workspace scenario in which the
point query for workspace w2 raises. -/
theorem claim_C2_partial_failure_witness :
    ∃ T, get_all_datasets (.ok ⟨["id", "name"], [w1W] ++ w2W :: [w3W]⟩) fetchC2 =
      .ok (T, ["Error processing workspace " ++ cellStr (rowVal w2W "id") ++ ": " ++ "boom"]) ∧
      T.rows = ([w1W] ++ [w3W]).flatMap (fun w => (wsAnnot w ((fun _ => dTblW) w)).rows) :=
  claim_C2_partial_failure ["id", "name"] [w1W] [w3W] w2W fetchC2 (fun _ => dTblW) "boom"
    (by decide) (by decide) (by decide) (by decide)

/-- Claim C4: in get_all_dataset_users and get_all_dataset_sources,
every dataset whose name contains the substring "Usage Metrics" is
removed by the pre-pass before the fan-out loop — the iterated parent
rows are exactly the datasets with a clean string name — and every row
of the result carries the identifiers (datasetId, datasetName) of a
dataset whose name does not contain the substring. -/
theorem claim_C4_usage_metrics_filter
    (dsT : Table) (logs0 : List String) (fetchU fetchS : Cell → Cell → Except String Table)
    (TU TS : Table) (logsU logsS : List String)
    (hU : get_all_dataset_users (.ok (dsT, logs0)) fetchU = .ok (TU, logsU))
    (hS : get_all_dataset_sources (.ok (dsT, logs0)) fetchS = .ok (TS, logsS)) :
    ∃ kept, dsT.filterNotContains "name" "Usage Metrics" = .ok kept ∧
      kept.rows = dsT.rows.filter (fun d => nameCleanB (rowVal d "name")) ∧
      (∀ d ∈ kept.rows, nameCleanB (rowVal d "name") = true) ∧
      (∀ r ∈ TU.rows, ∃ d ∈ dsT.rows, nameCleanB (rowVal d "name") = true ∧
        rowVal r "datasetId" = rowVal d "id" ∧ rowVal r "datasetName" = rowVal d "name") ∧
      (∀ r ∈ TS.rows, ∃ d ∈ dsT.rows, nameCleanB (rowVal d "name") = true ∧
        rowVal r "datasetId" = rowVal d "id" ∧ rowVal r "datasetName" = rowVal d "name") := by
  cases hflt : dsT.filterNotContains "name" "Usage Metrics" with
  | error e =>
    simp only [get_all_dataset_users, hflt] at hU
    exact absurd hU (fun hc => Except.noConfusion hc)
  | ok kept =>
    simp only [get_all_dataset_users, hflt] at hU
    simp only [get_all_dataset_sources, hflt] at hS
    obtain ⟨hc, hkcols, hkrows⟩ := filterNotContains_ok_inv hflt
    have hkrows' : kept.rows = dsT.rows.filter (fun d => nameCleanB (rowVal d "name")) := hkrows
    have hmem : ∀ d ∈ kept.rows, d ∈ dsT.rows ∧ nameCleanB (rowVal d "name") = true := by
      intro d hd
      rw [hkrows'] at hd
      have hp := List.of_mem_filter hd
      exact ⟨List.mem_of_mem_filter hd, hp⟩
    refine ⟨kept, rfl, hkrows', fun d hd => (hmem d hd).2, ?_, ?_⟩
    · intro r hr
      obtain ⟨d, hd, h1, h2, _, _⟩ := fanout_dsBody_mem hU r hr
      exact ⟨d, (hmem d hd).1, (hmem d hd).2, h1, h2⟩
    · intro r hr
      obtain ⟨d, hd, h1, h2, _, _⟩ := fanout_dsBody_mem hS r hr
      exact ⟨d, (hmem d hd).1, (hmem d hd).2, h1, h2⟩

/-- Witness for claim C4 at a concrete two-dataset table containing a
"Usage Metrics Report" dataset. -/
theorem claim_C4_usage_metrics_filter_witness :
    ∃ kept, dsW.filterNotContains "name" "Usage Metrics" = .ok kept ∧
      kept.rows = dsW.rows.filter (fun d => nameCleanB (rowVal d "name")) ∧
      (∀ d ∈ kept.rows, nameCleanB (rowVal d "name") = true) ∧
      (∀ r ∈ (⟨["user", "datasetId", "datasetName", "workspaceId", "workspaceName"],
        [[("user", Cell.s "alice"), ("datasetId", Cell.s "d1"),
          ("datasetName", Cell.s "Sales"), ("workspaceId", Cell.s "w1"),
          ("workspaceName", Cell.s "W1")],
         [("user", Cell.s "alice"), ("datasetId", Cell.s "d3"),
          ("datasetName", Cell.s "Raw"), ("workspaceId", Cell.s "w1"),
          ("workspaceName", Cell.s "W1")]]⟩ : Table).rows,
        ∃ d ∈ dsW.rows, nameCleanB (rowVal d "name") = true ∧
          rowVal r "datasetId" = rowVal d "id" ∧
          rowVal r "datasetName" = rowVal d "name") ∧
      (∀ r ∈ (⟨["user", "datasetId", "datasetName", "workspaceId", "workspaceName"],
        [[("user", Cell.s "alice"), ("datasetId", Cell.s "d1"),
          ("datasetName", Cell.s "Sales"), ("workspaceId", Cell.s "w1"),
          ("workspaceName", Cell.s "W1")],
         [("user", Cell.s "alice"), ("datasetId", Cell.s "d3"),
          ("datasetName", Cell.s "Raw"), ("workspaceId", Cell.s "w1"),
          ("workspaceName", Cell.s "W1")]]⟩ : Table).rows,
        ∃ d ∈ dsW.rows, nameCleanB (rowVal d "name") = true ∧
          rowVal r "datasetId" = rowVal d "id" ∧
          rowVal r "datasetName" = rowVal d "name") :=
  claim_C4_usage_metrics_filter dsW [] fetchUsW fetchUsW
    ⟨["user", "datasetId", "datasetName", "workspaceId", "workspaceName"],
      [[("user", Cell.s "alice"), ("datasetId", Cell.s "d1"),
        ("datasetName", Cell.s "Sales"), ("workspaceId", Cell.s "w1"),
        ("workspaceName", Cell.s "W1")],
       [("user", Cell.s "alice"), ("datasetId", Cell.s "d3"),
        ("datasetName", Cell.s "Raw"), ("workspaceId", Cell.s "w1"),
        ("workspaceName", Cell.s "W1")]]⟩
    ⟨["user", "datasetId", "datasetName", "workspaceId", "workspaceName"],
      [[("user", Cell.s "alice"), ("datasetId", Cell.s "d1"),
        ("datasetName", Cell.s "Sales"), ("workspaceId", Cell.s "w1"),
        ("workspaceName", Cell.s "W1")],
       [("user", Cell.s "alice"), ("datasetId", Cell.s "d3"),
        ("datasetName", Cell.s "Raw"), ("workspaceId", Cell.s "w1"),
        ("workspaceName", Cell.s "W1")]]⟩
    [] [] (by decide) (by decide)

/-- Claim C5: in get_all_dataset_refresh_history, every dataset whose
refreshable flag is not exactly the string "True" is removed by the
pre-pass before the fan-out loop — the iterated parents are exactly the
rows whose isRefreshable cell equals the string "True" — and every
result row carries the identifiers of such a dataset. -/
theorem claim_C5_refreshable_filter
    (dsT : Table) (logs0 : List String) (fetch : Cell → Cell → Except String Table)
    (T : Table) (logs : List String)
    (h : get_all_dataset_refresh_history (.ok (dsT, logs0)) fetch = .ok (T, logs)) :
    ∃ kept, dsT.filterEq "isRefreshable" (Cell.s "True") = .ok kept ∧
      kept.rows = refreshableRows dsT ∧
      (∀ d ∈ kept.rows, rowVal d "isRefreshable" = Cell.s "True") ∧
      ∀ r ∈ T.rows, ∃ d ∈ dsT.rows, rowVal d "isRefreshable" = Cell.s "True" ∧
        rowVal r "datasetId" = rowVal d "id" ∧ rowVal r "datasetName" = rowVal d "name" := by
  cases hflt : dsT.filterEq "isRefreshable" (Cell.s "True") with
  | error e =>
    simp only [get_all_dataset_refresh_history, hflt] at h
    exact absurd h (fun hc => Except.noConfusion hc)
  | ok kept =>
    simp only [get_all_dataset_refresh_history, hflt] at h
    obtain ⟨hc, hkcols, hkrows⟩ := filterEq_ok_inv hflt
    have hmem : ∀ d ∈ kept.rows, d ∈ dsT.rows ∧ rowVal d "isRefreshable" = Cell.s "True" := by
      intro d hd
      rw [hkrows] at hd
      have hp := List.of_mem_filter hd
      have hp' : (rowVal d "isRefreshable" == Cell.s "True") = true := hp
      exact ⟨List.mem_of_mem_filter hd, eq_of_beq hp'⟩
    refine ⟨kept, rfl, hkrows, fun d hd => (hmem d hd).2, ?_⟩
    intro r hr
    obtain ⟨d, hd, h1, h2, _, _⟩ := fanout_dsBody_mem h r hr
    exact ⟨d, (hmem d hd).1, (hmem d hd).2, h1, h2⟩

/-- Witness for claim C5 at a concrete table containing a dataset whose
refreshable flag is a boolean rather than the string "True". -/
theorem claim_C5_refreshable_filter_witness :
    ∃ kept, dsW.filterEq "isRefreshable" (Cell.s "True") = .ok kept ∧
      kept.rows = refreshableRows dsW ∧
      (∀ d ∈ kept.rows, rowVal d "isRefreshable" = Cell.s "True") ∧
      ∀ r ∈ (⟨["status", "datasetId", "datasetName", "workspaceId", "workspaceName"],
        [[("status", Cell.s "Completed"), ("datasetId", Cell.s "d1"),
          ("datasetName", Cell.s "Sales"), ("workspaceId", Cell.s "w1"),
          ("workspaceName", Cell.s "W1")],
         [("status", Cell.s "Completed"), ("datasetId", Cell.s "d2"),
          ("datasetName", Cell.s "Usage Metrics Report"), ("workspaceId", Cell.s "w1"),
          ("workspaceName", Cell.s "W1")]]⟩ : Table).rows,
        ∃ d ∈ dsW.rows, rowVal d "isRefreshable" = Cell.s "True" ∧
          rowVal r "datasetId" = rowVal d "id" ∧
          rowVal r "datasetName" = rowVal d "name" :=
  claim_C5_refreshable_filter dsW [] fetchRhW
    ⟨["status", "datasetId", "datasetName", "workspaceId", "workspaceName"],
      [[("status", Cell.s "Completed"), ("datasetId", Cell.s "d1"),
        ("datasetName", Cell.s "Sales"), ("workspaceId", Cell.s "w1"),
        ("workspaceName", Cell.s "W1")],
       [("status", Cell.s "Completed"), ("datasetId", Cell.s "d2"),
        ("datasetName", Cell.s "Usage Metrics Report"), ("workspaceId", Cell.s "w1"),
        ("workspaceName", Cell.s "W1")]]⟩
    [] (by decide)

/-- Counterexample to claim C3: with an empty parent collection (zero
workspaces) get_all_datasets returns the empty, column-less table, and
the filtering pre-pass of get_all_dataset_refresh_history then raises a
KeyError selecting the absent isRefreshable column — the bulk method
faults instead of returning an empty table. -/
theorem claim_C3_counterexample :
    get_all_dataset_refresh_history
      (get_all_datasets (.ok Table.empty) (fun _ => .ok Table.empty))
      (fun _ _ => .ok Table.empty) = .error "KeyError: isRefreshable" := rfl

/-- Claim C3 as amended: on an empty parent collection the bulk methods
without a filtering pre-pass (get_all_datasets) return an empty table and
raise no fault, but the three methods whose pre-pass selects a column of
the empty datasets table — refresh history (isRefreshable), dataset
users and dataset sources (name) — raise a KeyError that escapes the
bulk call, for any behaviour of the point-query collaborators. -/
theorem claim_C3_amended (fetchDs : Cell → Except String Table)
    (fetchCh : Cell → Cell → Except String Table) :
    get_all_datasets (.ok Table.empty) fetchDs = .ok (Table.empty, []) ∧
    get_all_dataset_refresh_history (get_all_datasets (.ok Table.empty) fetchDs) fetchCh =
      .error "KeyError: isRefreshable" ∧
    get_all_dataset_users (get_all_datasets (.ok Table.empty) fetchDs) fetchCh =
      .error "KeyError: name" ∧
    get_all_dataset_sources (get_all_datasets (.ok Table.empty) fetchDs) fetchCh =
      .error "KeyError: name" :=
  ⟨rfl, rfl, rfl, rfl⟩

end PBI
